import Mathlib

/-!
Shallow embedding of the payload winch motor controller
(`src/unnamed/part_000`; `src/Motor-Control/Motor-Control.cpp` is an earlier
revision of the same logic contained in the same repository).

Modelling conventions:
* C `float` values are modelled as exact rationals (`ℚ`); the value
  `(float)M_PI` is taken as the exact rational value of the 32-bit float
  nearest to π.
* `uint32_t` values are natural numbers; arithmetic that can wrap in C is
  made explicit with `% 4294967296` (see `readCtr`, `u32sub`).
* The environment `Env` abstracts the outside world: each primitive read of
  the monotonic clock (`get_absolute_time`, microseconds) or of the
  interrupt-driven pulse counter (`g_fg_pulses`) consumes one tick `k` of an
  oracle `E : ℕ → ℤ × ℕ`; `(E k).1` is the clock value at tick `k` and
  `(E k).2` is the total number of feedback edges that have occurred up to
  tick `k`.  The register `g_fg_pulses` equals the total edge count minus
  the total at the moment of the last reset (`readCtr`), reflecting that the
  interrupt keeps incrementing the counter after a reset.  Calls that read
  the clock only on a cold-start path (`slew_set_target`) still consume one
  tick, so cursor accounting is uniform.
* Loops are driven by explicit fuel; an exit value `.fuelOut` marks fuel
  exhaustion, i.e. the C loop still running at that point of the trace.
* Physical side effects are recorded in an event list: direction-pin writes,
  counter resets, PWM duty-cycle writes, and speed commands issued to the
  slew-rate limiter.
-/

/-- Observable side effects of the controller. -/
inductive Ev
  | setDir (cw : Bool)
  | resetCtr
  | pwmWrite (level : ℕ)
  | cmd (tp rate : ℚ)
deriving DecidableEq

/-- State of the slew-rate limiter `g_slew` (source lines 50-56). -/
structure SlewState where
  current : ℚ
  target : ℚ
  rate : ℚ
  last_t : ℤ
  initialized : Bool
deriving DecidableEq

/-- The C++ static initializer of `g_slew`. -/
def slewInit0 : SlewState := ⟨0, 0, 200, 0, false⟩

/-- `set_speed` (source lines 39-46): clamp percent to [0,100] and convert
to a PWM level by truncation of `percent / 100 * PWM_WRAP` with
`PWM_WRAP = 6249`. -/
def set_speed_level (percent : ℚ) : ℕ :=
  let p1 := if percent < 0 then 0 else percent
  let p2 := if p1 > 100 then 100 else p1
  ⌊p2 / 100 * 6249⌋₊

/-- `slew_init` (source lines 58-64): reset current and target, stamp the
clock, mark initialized, and drive the output once. -/
def slew_init (s : SlewState) (start : ℚ) (now : ℤ) : SlewState × List Ev :=
  (⟨start, start, s.rate, now, true⟩, [Ev.pwmWrite (set_speed_level start)])

/-- `slew_set_target` (source lines 66-74): initialize on first use, clamp
the target percent to [0,100], and substitute rate 1 for any rate ≤ 0. -/
def slew_set_target (s : SlewState) (tp rate : ℚ) (now : ℤ) : SlewState × List Ev :=
  let si := if s.initialized then (s, ([] : List Ev)) else slew_init s 0 now
  let t1 := if tp < 0 then 0 else tp
  let t2 := if t1 > 100 then 100 else t1
  let r := if rate ≤ 0 then 1 else rate
  (⟨si.1.current, t2, r, si.1.last_t, si.1.initialized⟩, si.2 ++ [Ev.cmd t2 r])

/-- `slew_update` (source lines 76-97): compute the elapsed time since the
last update; if it is ≤ 0 return without touching the output; otherwise
move `current` toward `target` by at most `rate * dt` (snapping when the
remaining error fits in one step) and drive the output. -/
def slew_update (s : SlewState) (now : ℤ) : SlewState × List Ev :=
  let si := if s.initialized then (s, ([] : List Ev)) else slew_init s 0 now
  let s1 := si.1
  let dt := now - s1.last_t
  if dt ≤ 0 then (s1, si.2)
  else
    let max_step := s1.rate * ((dt : ℚ) / 1000000)
    let error := s1.target - s1.current
    let cur := if |error| ≤ max_step then s1.target
               else s1.current + (if error > 0 then max_step else -max_step)
    (⟨cur, s1.target, s1.rate, now, s1.initialized⟩,
     si.2 ++ [Ev.pwmWrite (set_speed_level cur)])

/-- The world oracle: tick ↦ (clock in µs, total feedback edges so far). -/
abbrev Env := ℕ → ℤ × ℕ

/-- A read of the 32-bit register `g_fg_pulses` at tick `k`, where `base` is
the total edge count at the moment of the last reset. -/
def readCtr (E : Env) (k : ℕ) (base : ℕ) : ℕ := ((E k).2 - base) % 4294967296

/-- 32-bit unsigned subtraction `a - b` as performed by the C code. -/
def u32sub (a b : ℕ) : ℕ :=
  (a % 4294967296 + 4294967296 - b % 4294967296) % 4294967296

/-- The settle loop of `brake_to_stop` (source lines 108-112): keep calling
`slew_update` until `settle_us` of wall time has passed. -/
def brake_loop (E : Env) : ℕ → ℕ → SlewState → ℤ → ℤ → SlewState × ℕ × List Ev
  | 0, k, s, _, _ => (s, k, [])
  | fuel+1, k, s, t0, settle_us =>
    if (E k).1 - t0 < settle_us then
      let su := slew_update s ((E (k+1)).1)
      let rest := brake_loop E fuel (k+2) su.1 t0 settle_us
      (rest.1, rest.2.1, su.2 ++ rest.2.2)
    else (s, k+1, [])

/-- `brake_to_stop` (source lines 103-113): command target 0 at rate 400,
then run the settle loop for `settle_ms` milliseconds. -/
def brake_to_stop (E : Env) (fuel k : ℕ) (s : SlewState) (settle_ms : ℤ) :
    SlewState × ℕ × List Ev :=
  let st := slew_set_target s 0 400 ((E k).1)
  let t0 := (E (k+1)).1
  let bl := brake_loop E fuel (k+2) st.1 t0 (settle_ms * 1000)
  (bl.1, bl.2.1, st.2 ++ bl.2.2)

/-- `GEAR_RATIO` (source line 15). -/
def GEAR_RATIO : ℚ := 14

/-- `FG_PULSES_PER_MOTOR_REV` (source line 16). -/
def FG_PULSES_PER_MOTOR_REV : ℚ := 6

/-- `DRUM_DIAMETER_M` (source line 17). -/
def DRUM_DIAMETER_M : ℚ := 1/20

/-- `(float)M_PI`: the exact value of the 32-bit float nearest to π. -/
def M_PI_F : ℚ := 13176795 / 4194304

/-- `drum_circumference_m` (source lines 120-122). -/
def drum_circumference_m : ℚ := M_PI_F * DRUM_DIAMETER_M

/-- pulses per drum revolution = gear ratio * pulses per motor revolution. -/
def pulses_per_output_rev : ℚ := GEAR_RATIO * FG_PULSES_PER_MOTOR_REV

/-- The derived conversion constant (source line 130), ≈ 534.76. -/
def pulses_per_meter : ℚ := pulses_per_output_rev / drum_circumference_m

/-- `target_pulses_for_meters` (source lines 124-133): 0 for non-positive
distances, otherwise truncation of `meters * pulses_per_meter + 0.5`. -/
def target_pulses_for_meters (meters : ℚ) : ℕ :=
  if meters ≤ 0 then 0 else ⌊meters * pulses_per_meter + 1/2⌋₊

/-- The tiered stall thresholds (source lines 178-182), applied to the
currently commanded speed `g_slew.target`. -/
def stall_min_pulses (cmd : ℚ) : ℕ :=
  if cmd < 15 then 0 else if cmd < 40 then 1 else if cmd < 70 then 2 else 3

/-- The guarded remaining-pulse computation (source line 199):
`(now < target) ? (target - now) : 0`. -/
def remaining_pulses (now target : ℕ) : ℕ :=
  if now < target then target - now else 0

/-- The speed selection (source lines 202-206): padding speed inside the
start or end padding zone, cruise speed otherwise. -/
def desired_speed_sel (now remaining pad_pulses : ℕ) (padding_speed cruise : ℚ) : ℚ :=
  if now < pad_pulses then padding_speed
  else if remaining < pad_pulses then padding_speed
  else cruise

/-- The padding collapse (source lines 150-152): if the move is too short
for two padding zones, halve it. -/
def effective_pad (pad target : ℕ) : ℕ :=
  if pad * 2 ≥ target then target / 2 else pad

/-- Which `return` statement of `move_meters` fired. -/
inductive MoveExit
  | reached
  | stalled
  | timedOut
  | fuelOut
deriving DecidableEq

/-- Instrumented result of a `move_meters` call.  `ok` is the C return
value; `exit` tags the return site; `base` is the counter base after the
call; `pad` is the effective `pad_pulses` used. -/
structure MoveResult where
  ok : Bool
  exit : MoveExit
  slew : SlewState
  base : ℕ
  pad : ℕ
  evs : List Ev
deriving DecidableEq

/-- Loop-invariant context of `move_meters`. -/
structure LoopCtx where
  env : Env
  target : ℕ
  pad : ℕ
  cruise : ℚ
  padding_speed : ℚ
  timeout_us : ℤ
  window_us : ℤ
  t0 : ℤ
  base : ℕ

/-- The main loop of `move_meters` (source lines 169-214).  Per iteration:
read the guard, run `slew_update`, re-read the counter, run the stall check
(window elapsed → compare the window delta against the tiered minimum;
below it → brake and return false), run the timeout check (elapsed since
start beyond `timeout_ms` → brake and return false), then the padded speed
selection (re-issuing a slew target only when the desired speed moved by
more than 0.01). -/
def move_loop (C : LoopCtx) : ℕ → ℕ → SlewState → ℤ → ℕ → ℚ → MoveResult
  | 0, _, s, _, _, _ => ⟨false, .fuelOut, s, C.base, C.pad, []⟩
  | fuel+1, k, s, srt, srp, last_speed =>
    if readCtr C.env k C.base < C.target then
      let su := slew_update s ((C.env (k+1)).1)
      let s1 := su.1
      let now := readCtr C.env (k+2) C.base
      let stall : (ℤ × ℕ × ℕ) ⊕ (SlewState × List Ev) :=
        if (C.env (k+3)).1 - srt > C.window_us then
          let dp := u32sub (readCtr C.env (k+4) C.base) srp
          if 0 < stall_min_pulses s1.target ∧ dp < stall_min_pulses s1.target then
            let br := brake_to_stop C.env fuel (k+5) s1 300
            Sum.inr (br.1, br.2.2)
          else Sum.inl ((C.env (k+6)).1, readCtr C.env (k+5) C.base, k+7)
        else Sum.inl (srt, srp, k+4)
      match stall with
      | Sum.inr p => ⟨false, .stalled, p.1, C.base, C.pad, su.2 ++ p.2⟩
      | Sum.inl c =>
        if (C.env c.2.2).1 - C.t0 > C.timeout_us then
          let br := brake_to_stop C.env fuel (c.2.2+1) s1 300
          ⟨false, .timedOut, br.1, C.base, C.pad, su.2 ++ br.2.2⟩
        else
          let desired :=
            desired_speed_sel now (remaining_pulses now C.target) C.pad C.padding_speed C.cruise
          if |desired - last_speed| > 1/100 then
            let st := slew_set_target s1 desired 200 ((C.env (c.2.2+1)).1)
            let r := move_loop C fuel (c.2.2+2) st.1 c.1 c.2.1 desired
            ⟨r.ok, r.exit, r.slew, r.base, r.pad, su.2 ++ st.2 ++ r.evs⟩
          else
            let r := move_loop C fuel (c.2.2+1) s1 c.1 c.2.1 last_speed
            ⟨r.ok, r.exit, r.slew, r.base, r.pad, su.2 ++ r.evs⟩
    else
      let br := brake_to_stop C.env fuel (k+1) s 300
      ⟨true, .reached, br.1, C.base, C.pad, br.2.2⟩

/-- `move_meters` (source lines 136-218).  `k0` is the oracle cursor and
`base0` the counter base when the call starts. -/
def move_meters (E : Env) (fuel k0 : ℕ) (s : SlewState) (base0 : ℕ)
    (cw : Bool) (meters cruise_percent : ℚ) (timeout_ms : ℕ)
    (padding_m padding_speed : ℚ) (stall_window_us : ℤ) : MoveResult :=
  let target := target_pulses_for_meters meters
  if target = 0 then ⟨true, .reached, s, base0, 0, []⟩
  else
    let pad := effective_pad (target_pulses_for_meters padding_m) target
    let base := (E k0).2
    let start_speed := if 0 < pad then padding_speed else cruise_percent
    let st := slew_set_target s start_speed 200 ((E (k0+1)).1)
    let C : LoopCtx := ⟨E, target, pad, cruise_percent, padding_speed,
      (timeout_ms : ℤ) * 1000, stall_window_us, (E (k0+2)).1, base⟩
    let r := move_loop C fuel (k0+5) st.1 ((E (k0+3)).1) (readCtr E (k0+4) base) start_speed
    ⟨r.ok, r.exit, r.slew, r.base, r.pad, Ev.resetCtr :: Ev.setDir cw :: st.2 ++ r.evs⟩

/-- How a `hold_payload_ms` trace ended. -/
inductive HoldExit
  | done
  | fuelOut
deriving DecidableEq

/-- Instrumented result of a `hold_payload_ms` call.  `k` is the oracle
cursor when the call ended (it measures how far the trace ran). -/
structure HoldResult where
  ok : Bool
  exit : HoldExit
  slew : SlewState
  base : ℕ
  k : ℕ
  evs : List Ev
deriving DecidableEq

/-- Loop-invariant context of `hold_payload_ms`. -/
structure HoldCtx where
  env : Env
  t0 : ℤ
  hold_us : ℤ
  tow_up_cw : Bool
  nudge_speed : ℚ
  deadband : ℕ
  nudge_pulses : ℕ
  gap_us : ℤ

/-- The corrective-nudge wait of `hold_payload_ms` (source lines 258-261):
`while (g_fg_pulses < nudge_pulses) { slew_update(); }`.  The Bool result
is true when the wait completed (enough pulses were observed) and false
when fuel ran out with the loop still spinning.  The source loop has no
timeout of its own. -/
def nudge_wait (E : Env) (np base : ℕ) : ℕ → ℕ → SlewState → SlewState × ℕ × Bool × List Ev
  | 0, k, s => (s, k, false, [])
  | fuel+1, k, s =>
    if readCtr E k base < np then
      let su := slew_update s ((E (k+1)).1)
      let rest := nudge_wait E np base fuel (k+2) su.1
      (rest.1, rest.2.1, rest.2.2.1, su.2 ++ rest.2.2.2)
    else (s, k+1, true, [])

/-- The main loop of `hold_payload_ms` (source lines 239-274): while the
hold duration has not elapsed, run `slew_update`; if the counter exceeds
the deadband and the rate-limit gap has passed, reset the counter, set the
nudge direction and speed, block in `nudge_wait`, brake, reset again, and
record the nudge time. -/
def hold_loop (C : HoldCtx) : ℕ → ℕ → SlewState → ℕ → ℤ → HoldResult
  | 0, k, s, base, _ => ⟨false, .fuelOut, s, base, k, []⟩
  | fuel+1, k, s, base, last_nudge =>
    if (C.env k).1 - C.t0 < C.hold_us then
      let su := slew_update s ((C.env (k+1)).1)
      if readCtr C.env (k+2) base > C.deadband then
        if (C.env (k+3)).1 - last_nudge > C.gap_us then
          let base1 := (C.env (k+4)).2
          let st := slew_set_target su.1 C.nudge_speed 400 ((C.env (k+5)).1)
          let nw := nudge_wait C.env C.nudge_pulses base1 fuel (k+6) st.1
          if nw.2.2.1 then
            let br := brake_to_stop C.env fuel nw.2.1 nw.1 200
            let base2 := (C.env br.2.1).2
            let r := hold_loop C fuel (br.2.1+2) br.1 base2 ((C.env (br.2.1+1)).1)
            ⟨r.ok, r.exit, r.slew, r.base, r.k,
              su.2 ++ Ev.resetCtr :: Ev.setDir C.tow_up_cw :: st.2 ++ nw.2.2.2
                ++ br.2.2 ++ Ev.resetCtr :: r.evs⟩
          else ⟨false, .fuelOut, nw.1, base1, nw.2.1,
            su.2 ++ Ev.resetCtr :: Ev.setDir C.tow_up_cw :: st.2 ++ nw.2.2.2⟩
        else
          let r := hold_loop C fuel (k+4) su.1 base last_nudge
          ⟨r.ok, r.exit, r.slew, r.base, r.k, su.2 ++ r.evs⟩
      else
        let r := hold_loop C fuel (k+3) su.1 base last_nudge
        ⟨r.ok, r.exit, r.slew, r.base, r.k, su.2 ++ r.evs⟩
    else ⟨true, .done, s, base, k+1, []⟩

/-- `hold_payload_ms` (source lines 222-277): brake, reset the counter,
then run the anti-slip hold loop for `hold_ms`. -/
def hold_payload_ms (E : Env) (fuel k0 : ℕ) (s : SlewState) (hold_ms : ℕ)
    (tow_up_cw : Bool) (nudge_speed : ℚ) (deadband nudge_pulses gap_ms : ℕ) : HoldResult :=
  let b := brake_to_stop E fuel k0 s 200
  let base := (E b.2.1).2
  let C : HoldCtx := ⟨E, (E (b.2.1+1)).1, (hold_ms : ℤ) * 1000, tow_up_cw, nudge_speed,
    deadband, nudge_pulses, (gap_ms : ℤ) * 1000⟩
  let r := hold_loop C fuel (b.2.1+3) b.1 base ((E (b.2.1+2)).1)
  ⟨r.ok, r.exit, r.slew, r.base, r.k, b.2.2 ++ Ev.resetCtr :: r.evs⟩

/-- Invariant claimed for the Speed Commander state. -/
def SlewInv (s : SlewState) : Prop :=
  0 ≤ s.current ∧ s.current ≤ 100 ∧ 0 ≤ s.target ∧ s.target ≤ 100 ∧ 0 < s.rate

/-- An operation on the Speed Commander, with the clock value observed
during the call. -/
inductive SlewOp
  | setT (tp rate : ℚ) (now : ℤ)
  | upd (now : ℤ)

/-- Run a sequence of Speed Commander operations. -/
def runOps : List SlewOp → SlewState → SlewState
  | [], s => s
  | SlewOp.setT tp r now :: ops, s => runOps ops (slew_set_target s tp r now).1
  | SlewOp.upd now :: ops, s => runOps ops (slew_update s now).1

/-- A world in which time advances 200 ms per tick and no feedback pulse
ever arrives. -/
def envA : Env := fun k => ((k : ℤ) * 200000, 0)

/-- A world in which time advances 200 ms per tick and one feedback pulse
arrives per tick. -/
def envC : Env := fun k => ((k : ℤ) * 200000, k)

/-- A world in which time advances 200 ms per tick and feedback pulses stop
for good after the fifth edge. -/
def envD : Env := fun k => ((k : ℤ) * 200000, min k 5)

/-- The loop context reached by
`move_meters envA 5 0 slewInit0 0 true (1/100) 100 1000000 (1/5) 50 500000`
when its loop starts. -/
def ctxStall : LoopCtx := ⟨envA, 5, 2, 100, 50, 1000000000, 500000, 400000, 0⟩

/-- Same as `ctxStall` but with a 1 ms timeout and a stall window too large
to ever elapse. -/
def ctxTimeout : LoopCtx := ⟨envA, 5, 2, 100, 50, 1000, 1000000000000, 400000, 0⟩

/-- The slew state reached by the prologue of the `ctxStall` move. -/
def slewA : SlewState := ⟨0, 50, 200, 200000, true⟩

/-- An initialized slew state resting at 50 %. -/
def slewB : SlewState := ⟨50, 50, 200, 1000, true⟩

/-- A hold context whose 1 ms duration has long elapsed at tick 10. -/
def holdCtxW : HoldCtx := ⟨envA, 0, 1000, true, 50, 1, 80, 250000⟩

/-- A move in world `envA` that stalls (commanded 50 %, zero pulses in a
full 500 ms window). -/
def moveStallRun : MoveResult :=
  move_meters envA 5 0 slewInit0 0 true (1/100) 100 1000000 (1/5) 50 500000

/-- A move in world `envA` that times out (1 ms timeout, stall window too
large to elapse). -/
def moveTimeoutRun : MoveResult :=
  move_meters envA 5 0 slewInit0 0 true (1/100) 100 1 (1/5) 50 1000000000000

/-- A move in world `envC` that reaches its 5-pulse target immediately. -/
def moveSuccessRun : MoveResult :=
  move_meters envC 5 0 slewInit0 0 true (1/100) 100 1000000 (1/5) 50 500000

/-- A 1-second hold in world `envD`: slip is detected, a nudge starts, the
pulses freeze below `nudge_pulses`, and the nudge wait spins forever. -/
def holdRunD : HoldResult :=
  hold_payload_ms envD 50 0 slewInit0 1000 true 50 1 80 250

theorem slew_set_target_initialized (s : SlewState) (tp r : ℚ) (now : ℤ) :
    (slew_set_target s tp r now).1.initialized = true := by
  unfold slew_set_target slew_init
  split <;> simp_all

theorem slew_set_target_target_zero (s : SlewState) (r : ℚ) (now : ℤ) :
    (slew_set_target s 0 r now).1.target = 0 := by
  unfold slew_set_target
  norm_num

theorem slew_update_preserves (s : SlewState) (now : ℤ) (h : s.initialized = true) :
    (slew_update s now).1.target = s.target ∧ (slew_update s now).1.rate = s.rate ∧
    (slew_update s now).1.initialized = true := by
  unfold slew_update
  simp only [h, if_true]
  split <;> simp [h]

theorem brake_loop_preserves (E : Env) :
    ∀ (fuel k : ℕ) (s : SlewState) (t0 w : ℤ), s.initialized = true →
      (brake_loop E fuel k s t0 w).1.target = s.target ∧
      (brake_loop E fuel k s t0 w).1.initialized = true := by
  intro fuel
  induction fuel with
  | zero => intro k s t0 w h; simp [brake_loop, h]
  | succ n ih =>
    intro k s t0 w h
    unfold brake_loop
    split
    · have hu := slew_update_preserves s ((E (k+1)).1) h
      have := ih (k+2) (slew_update s ((E (k+1)).1)).1 t0 w hu.2.2
      exact ⟨this.1.trans hu.1, this.2⟩
    · exact ⟨rfl, h⟩

theorem brake_to_stop_target (E : Env) (fuel k : ℕ) (s : SlewState) (ms : ℤ) :
    (brake_to_stop E fuel k s ms).1.target = 0 ∧
    (brake_to_stop E fuel k s ms).1.initialized = true := by
  unfold brake_to_stop
  have h0 := slew_set_target_target_zero s 400 ((E k).1)
  have h1 := slew_set_target_initialized s 0 400 ((E k).1)
  have h2 := brake_loop_preserves E fuel (k+2) (slew_set_target s 0 400 ((E k).1)).1
    ((E (k+1)).1) (ms*1000) h1
  exact ⟨h2.1.trans h0, h2.2⟩

theorem slew_set_target_inv (s : SlewState) (tp r : ℚ) (now : ℤ)
    (h : SlewInv s) : SlewInv (slew_set_target s tp r now).1 := by
  obtain ⟨h1, h2, h3, h4, h5⟩ := h
  unfold slew_set_target slew_init SlewInv
  by_cases hi : s.initialized = true
  · rw [if_pos hi]
    dsimp only
    refine ⟨h1, h2, ?_, ?_, ?_⟩ <;> split_ifs <;> linarith
  · rw [if_neg hi]
    dsimp only
    refine ⟨le_refl 0, by norm_num, ?_, ?_, ?_⟩ <;> split_ifs <;> linarith

theorem slew_update_inv (s : SlewState) (now : ℤ)
    (h : SlewInv s) : SlewInv (slew_update s now).1 := by
  obtain ⟨h1, h2, h3, h4, h5⟩ := h
  unfold slew_update slew_init SlewInv
  by_cases hi : s.initialized = true
  · rw [if_pos hi]
    dsimp only
    by_cases hdt : now - s.last_t ≤ 0
    · rw [if_pos hdt]
      exact ⟨h1, h2, h3, h4, h5⟩
    · rw [if_neg hdt]
      dsimp only
      push_neg at hdt
      have hmspos : 0 < s.rate * (((now - s.last_t : ℤ) : ℚ) / 1000000) :=
        mul_pos h5 (div_pos (by exact_mod_cast hdt) (by norm_num))
      refine ⟨?_, ?_, h3, h4, h5⟩
      · split_ifs with habs herr
        · exact h3
        · linarith
        · push_neg at habs herr
          rw [abs_of_nonpos (by linarith)] at habs
          linarith
      · split_ifs with habs herr
        · exact h4
        · push_neg at habs
          rw [abs_of_pos (by linarith)] at habs
          linarith
        · linarith
  · rw [if_neg hi]
    dsimp only
    rw [if_pos (by rw [sub_self])]
    exact ⟨le_refl 0, by norm_num, le_refl 0, by norm_num, h5⟩

theorem slew_update_step_bound (s : SlewState) (now : ℤ)
    (hi : s.initialized = true) (h : SlewInv s) :
    |(slew_update s now).1.current - s.current| ≤
      s.rate * (max (((now - s.last_t : ℤ) : ℚ)) 0 / 1000000) := by
  obtain ⟨h1, h2, h3, h4, h5⟩ := h
  unfold slew_update
  rw [if_pos hi]
  dsimp only
  by_cases hdt : now - s.last_t ≤ 0
  · rw [if_pos hdt]
    dsimp only
    have hq : ((now - s.last_t : ℤ) : ℚ) ≤ 0 := by exact_mod_cast hdt
    rw [max_eq_right hq, sub_self, abs_zero]
    simp
  · rw [if_neg hdt]
    dsimp only
    push_neg at hdt
    have hdtq : (0:ℚ) < ((now - s.last_t : ℤ) : ℚ) := by exact_mod_cast hdt
    rw [max_eq_left hdtq.le]
    have hms : 0 < s.rate * (((now - s.last_t : ℤ) : ℚ) / 1000000) :=
      mul_pos h5 (div_pos hdtq (by norm_num))
    split_ifs with habs herr
    · exact habs
    · rw [show s.current + s.rate * (((now - s.last_t : ℤ) : ℚ) / 1000000) - s.current
          = s.rate * (((now - s.last_t : ℤ) : ℚ) / 1000000) from by ring,
        abs_of_pos hms]
    · rw [show s.current + -(s.rate * (((now - s.last_t : ℤ) : ℚ) / 1000000)) - s.current
          = -(s.rate * (((now - s.last_t : ℤ) : ℚ) / 1000000)) from by ring,
        abs_neg, abs_of_pos hms]

theorem slew_update_toward (s : SlewState) (now : ℤ)
    (hi : s.initialized = true) (h : SlewInv s) :
    |(slew_update s now).1.current - s.target| ≤ |s.current - s.target| := by
  obtain ⟨h1, h2, h3, h4, h5⟩ := h
  unfold slew_update
  rw [if_pos hi]
  dsimp only
  by_cases hdt : now - s.last_t ≤ 0
  · rw [if_pos hdt]
  · rw [if_neg hdt]
    dsimp only
    push_neg at hdt
    have hdtq : (0:ℚ) < ((now - s.last_t : ℤ) : ℚ) := by exact_mod_cast hdt
    have hms : 0 < s.rate * (((now - s.last_t : ℤ) : ℚ) / 1000000) :=
      mul_pos h5 (div_pos hdtq (by norm_num))
    split_ifs with habs herr
    · rw [sub_self, abs_zero]
      exact abs_nonneg _
    · push_neg at habs
      rw [abs_of_pos (by linarith)] at habs
      rw [abs_of_neg (by linarith), abs_of_neg (by linarith)]
      linarith
    · push_neg at habs herr
      rw [abs_of_nonpos (by linarith)] at habs
      rw [abs_of_pos (by linarith), abs_of_nonneg (by linarith)]
      linarith

theorem slew_update_snap (s : SlewState) (now : ℤ)
    (hi : s.initialized = true) (hdt : 0 < now - s.last_t)
    (hcl : |s.target - s.current| ≤ s.rate * (((now - s.last_t : ℤ) : ℚ) / 1000000)) :
    (slew_update s now).1.current = s.target := by
  unfold slew_update
  rw [if_pos hi]
  dsimp only
  rw [if_neg (not_le.mpr hdt)]
  dsimp only
  rw [if_pos hcl]

theorem slew_set_target_clamps (s : SlewState) (tp r : ℚ) (now : ℤ) :
    0 ≤ (slew_set_target s tp r now).1.target ∧
    (slew_set_target s tp r now).1.target ≤ 100 ∧
    (0 ≤ tp → tp ≤ 100 → (slew_set_target s tp r now).1.target = tp) ∧
    0 < (slew_set_target s tp r now).1.rate ∧
    (r ≤ 0 → (slew_set_target s tp r now).1.rate = 1) := by
  unfold slew_set_target
  dsimp only
  refine ⟨?_, ?_, ?_, ?_, ?_⟩
  · split_ifs <;> linarith
  · split_ifs <;> linarith
  · intro h0 h100
    rw [if_neg (not_lt.mpr h0), if_neg (not_lt.mpr h100)]
  · split_ifs with hr
    · norm_num
    · exact not_le.mp hr
  · intro hr
    rw [if_pos hr]

theorem runOps_inv : ∀ (ops : List SlewOp) (s : SlewState),
    SlewInv s → SlewInv (runOps ops s)
  | [], _, h => h
  | SlewOp.setT tp r now :: ops, s, h =>
    runOps_inv ops _ (slew_set_target_inv s tp r now h)
  | SlewOp.upd now :: ops, s, h =>
    runOps_inv ops _ (slew_update_inv s now h)

theorem move_loop_props (C : LoopCtx) :
    ∀ (fuel k : ℕ) (s : SlewState) (srt : ℤ) (srp : ℕ) (ls : ℚ),
      (move_loop C fuel k s srt srp ls).pad = C.pad ∧
      (move_loop C fuel k s srt srp ls).base = C.base ∧
      ((move_loop C fuel k s srt srp ls).exit = MoveExit.reached →
        (move_loop C fuel k s srt srp ls).ok = true) ∧
      ((move_loop C fuel k s srt srp ls).exit = MoveExit.stalled →
        (move_loop C fuel k s srt srp ls).ok = false) ∧
      ((move_loop C fuel k s srt srp ls).exit = MoveExit.timedOut →
        (move_loop C fuel k s srt srp ls).ok = false) ∧
      ((move_loop C fuel k s srt srp ls).exit = MoveExit.fuelOut →
        (move_loop C fuel k s srt srp ls).ok = false) := by
  intro fuel
  induction fuel with
  | zero =>
    intro k s srt srp ls
    exact ⟨rfl, rfl, by simp [move_loop], by simp [move_loop], by simp [move_loop],
      by simp [move_loop]⟩
  | succ n ih =>
    intro k s srt srp ls
    unfold move_loop
    dsimp only
    by_cases h1 : readCtr C.env k C.base < C.target
    · rw [if_pos h1]
      by_cases h2 : (C.env (k+3)).1 - srt > C.window_us
      · rw [if_pos h2]
        by_cases h3 : 0 < stall_min_pulses (slew_update s ((C.env (k+1)).1)).1.target ∧
            u32sub (readCtr C.env (k+4) C.base) srp <
              stall_min_pulses (slew_update s ((C.env (k+1)).1)).1.target
        · rw [if_pos h3]
          exact ⟨rfl, rfl, by simp, by simp, by simp, by simp⟩
        · rw [if_neg h3]
          dsimp only
          by_cases h4 : (C.env (k+7)).1 - C.t0 > C.timeout_us
          · rw [if_pos h4]
            exact ⟨rfl, rfl, by simp, by simp, by simp, by simp⟩
          · rw [if_neg h4]
            split_ifs with h5
            · exact ih (k+7+2) _ _ _ _
            · exact ih (k+7+1) _ _ _ _
      · rw [if_neg h2]
        dsimp only
        by_cases h4 : (C.env (k+4)).1 - C.t0 > C.timeout_us
        · rw [if_pos h4]
          exact ⟨rfl, rfl, by simp, by simp, by simp, by simp⟩
        · rw [if_neg h4]
          split_ifs with h5
          · exact ih (k+4+2) _ _ _ _
          · exact ih (k+4+1) _ _ _ _
    · rw [if_neg h1]
      exact ⟨rfl, rfl, by simp, by simp, by simp, by simp⟩

/-- C5: `pulses_for_distance` returns 0 for every non-positive distance and
`round(meters * pulses_per_meter)` for every positive distance, as a pure
function of the mechanical constants; in particular 0.6 m maps to 321
pulses, which also equals `round(0.6 * 535)`. -/
theorem C5_pulses_for_distance :
    (∀ m : ℚ, m ≤ 0 → target_pulses_for_meters m = 0) ∧
    (∀ m : ℚ, 0 < m → (target_pulses_for_meters m : ℤ) = round (m * pulses_per_meter)) ∧
    target_pulses_for_meters (3/5) = 321 ∧
    round ((3/5 : ℚ) * 535) = (321 : ℤ) := by
  have hppm : 0 < pulses_per_meter := by
    unfold pulses_per_meter pulses_per_output_rev drum_circumference_m M_PI_F GEAR_RATIO
      FG_PULSES_PER_MOTOR_REV DRUM_DIAMETER_M
    norm_num
  refine ⟨?_, ?_, ?_, ?_⟩
  · intro m hm
    unfold target_pulses_for_meters
    rw [if_pos hm]
  · intro m hm
    unfold target_pulses_for_meters
    rw [if_neg (not_le.mpr hm), round_eq]
    exact Int.natCast_floor_eq_floor (by nlinarith)
  · unfold target_pulses_for_meters
    rw [if_neg (by norm_num)]
    rw [Nat.floor_eq_iff (by norm_num [pulses_per_meter, pulses_per_output_rev,
      drum_circumference_m, M_PI_F, GEAR_RATIO, FG_PULSES_PER_MOTOR_REV, DRUM_DIAMETER_M])]
    norm_num [pulses_per_meter, pulses_per_output_rev, drum_circumference_m, M_PI_F,
      GEAR_RATIO, FG_PULSES_PER_MOTOR_REV, DRUM_DIAMETER_M]
  · rw [round_eq]
    norm_num

/-- Witness for C5 at concrete inputs. -/
theorem C5_pulses_for_distance_witness :
    target_pulses_for_meters 0 = 0 ∧
    (target_pulses_for_meters 1 : ℤ) = round ((1 : ℚ) * pulses_per_meter) :=
  ⟨C5_pulses_for_distance.1 0 le_rfl, C5_pulses_for_distance.2.1 1 one_pos⟩

/-- C6: the Speed Commander invariant.  Any sequence of `set_target` and
`update` calls keeps `current` and `target` in [0,100] and the rate
positive; a single `update` moves `current` by at most `rate * dt`, never
away from `target`, and snaps to `target` when the remaining error fits in
one step; `set_target` clamps its percent to [0,100] and substitutes rate 1
for any rate ≤ 0. -/
theorem C6_speed_commander_invariant :
    (∀ (ops : List SlewOp) (s : SlewState), SlewInv s → SlewInv (runOps ops s)) ∧
    (∀ (s : SlewState) (now : ℤ), s.initialized = true → SlewInv s →
      |(slew_update s now).1.current - s.current| ≤
        s.rate * (max (((now - s.last_t : ℤ) : ℚ)) 0 / 1000000)) ∧
    (∀ (s : SlewState) (now : ℤ), s.initialized = true → SlewInv s →
      |(slew_update s now).1.current - s.target| ≤ |s.current - s.target|) ∧
    (∀ (s : SlewState) (now : ℤ), s.initialized = true → 0 < now - s.last_t →
      |s.target - s.current| ≤ s.rate * (((now - s.last_t : ℤ) : ℚ) / 1000000) →
      (slew_update s now).1.current = s.target) ∧
    (∀ (s : SlewState) (tp r : ℚ) (now : ℤ),
      0 ≤ (slew_set_target s tp r now).1.target ∧
      (slew_set_target s tp r now).1.target ≤ 100 ∧
      (0 ≤ tp → tp ≤ 100 → (slew_set_target s tp r now).1.target = tp) ∧
      0 < (slew_set_target s tp r now).1.rate ∧
      (r ≤ 0 → (slew_set_target s tp r now).1.rate = 1)) :=
  ⟨runOps_inv, slew_update_step_bound, slew_update_toward, slew_update_snap,
    slew_set_target_clamps⟩

/-- Witness for C6: an out-of-range target with a non-positive rate plus an
update, run from the boot state, stays inside the invariant. -/
theorem C6_speed_commander_invariant_witness :
    SlewInv (runOps [SlewOp.setT 150 (-3) 0, SlewOp.upd 400000] slewInit0) :=
  C6_speed_commander_invariant.1 [SlewOp.setT 150 (-3) 0, SlewOp.upd 400000]
    slewInit0 (by unfold SlewInv slewInit0; norm_num)

/-- C7: `pad_pulses` is `pulses_for_distance(padding_m)` collapsed to
`target / 2` whenever `2 * pad_pulses ≥ target`; the loop commands the
padding speed while travelled pulses or remaining pulses are below
`pad_pulses` and the cruise speed otherwise. -/
theorem C7_padding_profile :
    (∀ pad target : ℕ, 2 * pad ≥ target → effective_pad pad target = target / 2) ∧
    (∀ pad target : ℕ, 2 * pad < target → effective_pad pad target = pad) ∧
    (∀ (E : Env) (fuel k0 : ℕ) (s : SlewState) (base0 : ℕ) (cw : Bool)
      (m cr : ℚ) (tms : ℕ) (pm ps : ℚ) (w : ℤ),
      (move_meters E fuel k0 s base0 cw m cr tms pm ps w).pad =
        effective_pad (target_pulses_for_meters pm) (target_pulses_for_meters m)) ∧
    (∀ (now rem pad : ℕ) (ps cs : ℚ), now < pad ∨ rem < pad →
      desired_speed_sel now rem pad ps cs = ps) ∧
    (∀ (now rem pad : ℕ) (ps cs : ℚ), ¬now < pad → ¬rem < pad →
      desired_speed_sel now rem pad ps cs = cs) := by
  refine ⟨?_, ?_, ?_, ?_, ?_⟩
  · intro pad target h
    unfold effective_pad
    rw [if_pos (by omega)]
  · intro pad target h
    unfold effective_pad
    rw [if_neg (by omega)]
  · intro E fuel k0 s base0 cw m cr tms pm ps w
    unfold move_meters
    dsimp only
    by_cases ht : target_pulses_for_meters m = 0
    · rw [if_pos ht, ht]
      simp [effective_pad]
    · rw [if_neg ht]
      exact (move_loop_props _ _ _ _ _ _ _).1
  · intro now rem pad ps cs h
    unfold desired_speed_sel
    rcases h with h | h
    · rw [if_pos h]
    · split_ifs <;> rfl
  · intro now rem pad ps cs h1 h2
    unfold desired_speed_sel
    rw [if_neg h1, if_neg h2]

/-- Witness for C7 at concrete inputs (the values arising in the 0.01 m
move: raw padding 107 pulses against a 5 pulse target). -/
theorem C7_padding_profile_witness :
    effective_pad 107 5 = 5 / 2 ∧ desired_speed_sel 0 5 2 50 100 = 50 ∧
    desired_speed_sel 2 3 2 50 100 = 100 :=
  ⟨C7_padding_profile.1 107 5 (by decide),
   C7_padding_profile.2.2.2.1 0 5 2 50 100 (Or.inl (by decide)),
   C7_padding_profile.2.2.2.2 2 3 2 50 100 (by decide) (by decide)⟩

/-- Counterexample to C8 as stated: an `update()` invocation on an
initialized commander whose clock has not advanced (dt = 0) returns
without driving the duty-cycle output at all (no write event) and leaves
the state untouched. -/
theorem C8_update_write_counterexample :
    (slew_update slewB 1000).2 = [] ∧ (slew_update slewB 1000).1 = slewB := by
  decide

/-- C8 (amended): every `update()` invocation in which time has advanced
since the last update (dt > 0) drives the duty-cycle output with the new
`current` value, even when `current` is unchanged; when dt ≤ 0 the call
returns early without writing. -/
theorem C8_update_output_write :
    ∀ (s : SlewState) (now : ℤ), s.initialized = true → 0 < now - s.last_t →
      (slew_update s now).2 =
        [Ev.pwmWrite (set_speed_level (slew_update s now).1.current)] := by
  intro s now hi hdt
  unfold slew_update
  rw [if_pos hi]
  dsimp only
  rw [if_neg (not_le.mpr hdt)]
  simp

/-- Witness for C8 (amended): an update at rest (current = target) still
writes the output. -/
theorem C8_update_output_write_witness :
    (slew_update slewB 2000).2 =
      [Ev.pwmWrite (set_speed_level (slew_update slewB 2000).1.current)] :=
  C8_update_output_write slewB 2000 rfl (by decide)

/-- C9: for every non-positive distance, `pulses_for_distance` returns 0
and `move_meters` returns success immediately: the slew state, counter
base, and event list (no direction write, no counter reset, no speed
command) are all untouched. -/
theorem C9_nonpositive_distance :
    ∀ (E : Env) (fuel k0 : ℕ) (s : SlewState) (base0 : ℕ) (cw : Bool)
      (m cr : ℚ) (tms : ℕ) (pm ps : ℚ) (w : ℤ), m ≤ 0 →
      move_meters E fuel k0 s base0 cw m cr tms pm ps w =
        ⟨true, MoveExit.reached, s, base0, 0, []⟩ ∧
      target_pulses_for_meters m = 0 := by
  intro E fuel k0 s base0 cw m cr tms pm ps w hm
  have ht : target_pulses_for_meters m = 0 := by
    unfold target_pulses_for_meters
    rw [if_pos hm]
  refine ⟨?_, ht⟩
  unfold move_meters
  dsimp only
  rw [ht]
  rw [if_pos rfl]

/-- Witness for C9 at distance 0 in a concrete world. -/
theorem C9_nonpositive_distance_witness :
    move_meters envA 3 0 slewInit0 7 true 0 100 1000 (1/5) 50 500000 =
      ⟨true, MoveExit.reached, slewInit0, 7, 0, []⟩ :=
  (C9_nonpositive_distance envA 3 0 slewInit0 7 true 0 100 1000 (1/5) 50 500000
    le_rfl).1

/-- C10: the remaining-pulse quantity in the move loop is computed through
an explicit underflow guard: it is `target - now` when `now < target` and 0
once the re-read counter has reached or passed the target, so it never
exceeds `target` — while the unguarded 32-bit subtraction would wrap to a
huge value (e.g. 5 - 6 wraps to 4294967295). -/
theorem C10_remaining_guard :
    (∀ now target : ℕ, target ≤ now → remaining_pulses now target = 0) ∧
    (∀ now target : ℕ, now < target → remaining_pulses now target = target - now) ∧
    (∀ now target : ℕ, remaining_pulses now target ≤ target) ∧
    u32sub 5 6 = 4294967295 ∧ remaining_pulses 6 5 = 0 := by
  refine ⟨?_, ?_, ?_, by decide, by decide⟩
  · intro now target h
    unfold remaining_pulses
    rw [if_neg (not_lt.mpr h)]
  · intro now target h
    unfold remaining_pulses
    rw [if_pos h]
  · intro now target
    unfold remaining_pulses
    split_ifs <;> omega

/-- Witness for C10 at concrete inputs. -/
theorem C10_remaining_guard_witness :
    remaining_pulses 7 5 = 0 ∧ remaining_pulses 2 5 = 5 - 2 :=
  ⟨C10_remaining_guard.1 7 5 (by decide), C10_remaining_guard.2.1 2 5 (by decide)⟩

/-- C1: in any move-loop iteration in which a full `stall_window_us` has
elapsed, the pulses accumulated in the window are compared against the
tiered minimum for the currently commanded speed band (<15 % → 0,
<40 % → 1, <70 % → 2, else 3); when the delta is below the minimum the
controller brakes (slew target 0) and reports the stall (return false
through the stall exit).  In particular any commanded speed ≥ 15 % has a
positive minimum, so zero pulses over a full window stalls. -/
theorem C1_stall_detection :
    (∀ (C : LoopCtx) (fuel k : ℕ) (s : SlewState) (srt : ℤ) (srp : ℕ) (ls : ℚ),
      readCtr C.env k C.base < C.target →
      (C.env (k+3)).1 - srt > C.window_us →
      0 < stall_min_pulses (slew_update s ((C.env (k+1)).1)).1.target →
      u32sub (readCtr C.env (k+4) C.base) srp <
        stall_min_pulses (slew_update s ((C.env (k+1)).1)).1.target →
      (move_loop C (fuel+1) k s srt srp ls).ok = false ∧
      (move_loop C (fuel+1) k s srt srp ls).exit = MoveExit.stalled ∧
      (move_loop C (fuel+1) k s srt srp ls).slew.target = 0) ∧
    (∀ c : ℚ, (c < 15 → stall_min_pulses c = 0) ∧
      (15 ≤ c → c < 40 → stall_min_pulses c = 1) ∧
      (40 ≤ c → c < 70 → stall_min_pulses c = 2) ∧
      (70 ≤ c → stall_min_pulses c = 3)) ∧
    (∀ c : ℚ, 15 ≤ c → 0 < stall_min_pulses c) := by
  refine ⟨?_, ?_, ?_⟩
  · intro C fuel k s srt srp ls h1 h2 h3 h4
    unfold move_loop
    dsimp only
    rw [if_pos h1, if_pos h2, if_pos ⟨h3, h4⟩]
    dsimp only
    exact ⟨rfl, rfl, (brake_to_stop_target C.env fuel (k+5) _ 300).1⟩
  · intro c
    unfold stall_min_pulses
    refine ⟨fun h => by rw [if_pos h], fun h1 h2 => ?_, fun h1 h2 => ?_, fun h1 => ?_⟩
    · rw [if_neg (not_lt.mpr h1), if_pos h2]
    · rw [if_neg (not_lt.mpr (by linarith)), if_neg (not_lt.mpr h1), if_pos h2]
    · rw [if_neg (not_lt.mpr (by linarith)), if_neg (not_lt.mpr (by linarith)),
        if_neg (not_lt.mpr h1)]
  · intro c h
    unfold stall_min_pulses
    rw [if_neg (not_lt.mpr h)]
    split_ifs <;> norm_num

/-- Witness for C1: the loop state reached by the 0.01 m move in world
`envA` (commanded 50 %, zero pulses over a 1 s window) stalls with the
drive commanded to 0. -/
theorem C1_stall_detection_witness :
    (move_loop ctxStall 5 5 slewA 600000 0 50).ok = false ∧
    (move_loop ctxStall 5 5 slewA 600000 0 50).exit = MoveExit.stalled ∧
    (move_loop ctxStall 5 5 slewA 600000 0 50).slew.target = 0 :=
  C1_stall_detection.1 ctxStall 4 5 slewA 600000 0 50 (by decide) (by decide)
    (by decide) (by decide)

/-- C2: in any move-loop iteration in which the target has not been
reached, the stall window has not elapsed, and the elapsed wall time since
the start exceeds `timeout_ms`, the controller brakes (slew target 0) and
reports the timeout (return false through the timeout exit). -/
theorem C2_timeout_detection :
    ∀ (C : LoopCtx) (fuel k : ℕ) (s : SlewState) (srt : ℤ) (srp : ℕ) (ls : ℚ),
      readCtr C.env k C.base < C.target →
      ¬((C.env (k+3)).1 - srt > C.window_us) →
      (C.env (k+4)).1 - C.t0 > C.timeout_us →
      (move_loop C (fuel+1) k s srt srp ls).ok = false ∧
      (move_loop C (fuel+1) k s srt srp ls).exit = MoveExit.timedOut ∧
      (move_loop C (fuel+1) k s srt srp ls).slew.target = 0 := by
  intro C fuel k s srt srp ls h1 h2 h3
  unfold move_loop
  dsimp only
  rw [if_pos h1, if_neg h2]
  dsimp only
  rw [if_pos h3]
  exact ⟨rfl, rfl, (brake_to_stop_target C.env fuel (k+4+1) _ 300).1⟩

/-- Witness for C2: the same loop state with a 1 ms timeout and a stall
window too large to elapse times out with the drive commanded to 0. -/
theorem C2_timeout_detection_witness :
    (move_loop ctxTimeout 5 5 slewA 600000 0 50).ok = false ∧
    (move_loop ctxTimeout 5 5 slewA 600000 0 50).exit = MoveExit.timedOut ∧
    (move_loop ctxTimeout 5 5 slewA 600000 0 50).slew.target = 0 :=
  C2_timeout_detection ctxTimeout 4 5 slewA 600000 0 50 (by decide) (by decide)
    (by decide)

theorem target_pulses_centi : target_pulses_for_meters (1/100) = 5 := by
  unfold target_pulses_for_meters
  rw [if_neg (by norm_num)]
  rw [Nat.floor_eq_iff (by norm_num [pulses_per_meter, pulses_per_output_rev,
    drum_circumference_m, M_PI_F, GEAR_RATIO, FG_PULSES_PER_MOTOR_REV, DRUM_DIAMETER_M])]
  norm_num [pulses_per_meter, pulses_per_output_rev, drum_circumference_m, M_PI_F,
    GEAR_RATIO, FG_PULSES_PER_MOTOR_REV, DRUM_DIAMETER_M]

theorem target_pulses_fifth : target_pulses_for_meters (1/5) = 107 := by
  unfold target_pulses_for_meters
  rw [if_neg (by norm_num)]
  rw [Nat.floor_eq_iff (by norm_num [pulses_per_meter, pulses_per_output_rev,
    drum_circumference_m, M_PI_F, GEAR_RATIO, FG_PULSES_PER_MOTOR_REV, DRUM_DIAMETER_M])]
  norm_num [pulses_per_meter, pulses_per_output_rev, drum_circumference_m, M_PI_F,
    GEAR_RATIO, FG_PULSES_PER_MOTOR_REV, DRUM_DIAMETER_M]

theorem moveStallRun_evals :
    moveStallRun.ok = false ∧ moveStallRun.exit = MoveExit.stalled := by
  unfold moveStallRun move_meters
  dsimp only
  rw [target_pulses_centi, target_pulses_fifth]
  constructor <;> decide

theorem moveTimeoutRun_evals :
    moveTimeoutRun.ok = false ∧ moveTimeoutRun.exit = MoveExit.timedOut := by
  unfold moveTimeoutRun move_meters
  dsimp only
  rw [target_pulses_centi, target_pulses_fifth]
  constructor <;> decide

theorem moveSuccessRun_evals :
    moveSuccessRun.ok = true ∧ moveSuccessRun.exit = MoveExit.reached := by
  unfold moveSuccessRun move_meters
  dsimp only
  rw [target_pulses_centi, target_pulses_fifth]
  constructor <;> decide

/-- Counterexample to C3 as stated: `move_meters` returns a bool, and a
stalling move and a timing-out move return the very same value `false`, so
the caller cannot distinguish the two failure kinds from the result. -/
theorem C3_outcome_counterexample :
    moveStallRun.exit = MoveExit.stalled ∧ moveTimeoutRun.exit = MoveExit.timedOut ∧
    moveStallRun.ok = false ∧ moveTimeoutRun.ok = false ∧
    moveStallRun.ok = moveTimeoutRun.ok :=
  ⟨moveStallRun_evals.2, moveTimeoutRun_evals.2, moveStallRun_evals.1,
   moveTimeoutRun_evals.1, moveStallRun_evals.1.trans moveTimeoutRun_evals.1.symm⟩

/-- C3 (amended): every move call returns an explicit boolean result —
true exactly on success, false on a stall and false on a timeout — so no
outcome is silently swallowed, but stall and timeout are only
distinguishable from success, not from each other. -/
theorem C3_move_returns_explicit_result :
    ∀ (E : Env) (fuel k0 : ℕ) (s : SlewState) (base0 : ℕ) (cw : Bool)
      (m cr : ℚ) (tms : ℕ) (pm ps : ℚ) (w : ℤ),
      ((move_meters E fuel k0 s base0 cw m cr tms pm ps w).exit = MoveExit.reached →
        (move_meters E fuel k0 s base0 cw m cr tms pm ps w).ok = true) ∧
      ((move_meters E fuel k0 s base0 cw m cr tms pm ps w).exit = MoveExit.stalled →
        (move_meters E fuel k0 s base0 cw m cr tms pm ps w).ok = false) ∧
      ((move_meters E fuel k0 s base0 cw m cr tms pm ps w).exit = MoveExit.timedOut →
        (move_meters E fuel k0 s base0 cw m cr tms pm ps w).ok = false) := by
  intro E fuel k0 s base0 cw m cr tms pm ps w
  unfold move_meters
  dsimp only
  by_cases ht : target_pulses_for_meters m = 0
  · rw [if_pos ht]
    exact ⟨fun _ => rfl, by simp, by simp⟩
  · rw [if_neg ht]
    dsimp only
    exact ⟨(move_loop_props _ _ _ _ _ _ _).2.2.1,
      (move_loop_props _ _ _ _ _ _ _).2.2.2.1,
      (move_loop_props _ _ _ _ _ _ _).2.2.2.2.1⟩

/-- Witness for C3 (amended): the stalling move returns false. -/
theorem C3_move_returns_explicit_result_witness :
    (move_meters envA 5 0 slewInit0 0 true (1/100) 100 1000000 (1/5) 50 500000).ok
      = false :=
  (C3_move_returns_explicit_result envA 5 0 slewInit0 0 true (1/100) 100 1000000
    (1/5) 50 500000).2.1 moveStallRun_evals.2

/-- Counterexample to C4 as stated: in a world where slip triggers a nudge
and pulses then freeze below `nudge_pulses`, `hold_payload_ms` with a 1 s
hold duration is still inside the nudge wait after more than 20 s of wall
time (it spins until fuel runs out) — the caller-supplied duration does
not bound the blocking time of the nudge wait. -/
theorem C4_unbounded_nudge_counterexample :
    holdRunD.exit = HoldExit.fuelOut ∧
    (envD holdRunD.k).1 - (envD 4).1 > 20 * (1000 * 1000) :=
  ⟨by decide, by decide⟩

/-- C4 (amended): move and hold run to completion before returning and
terminate only via reaching target, stall, or timeout; the move loop's
blocking is bounded by `timeout_ms` (checked every iteration, see C2) and
hold's outer loop returns as soon as its guard sees the hold duration
elapsed — but the corrective nudge wait inside hold is bounded by no
timeout at all: it exits only when `nudge_pulses` feedback pulses have
been observed. -/
theorem C4_blocking_bounds :
    (∀ (C : HoldCtx) (fuel k : ℕ) (s : SlewState) (base : ℕ) (ln : ℤ),
      ¬((C.env k).1 - C.t0 < C.hold_us) →
      hold_loop C (fuel+1) k s base ln = ⟨true, HoldExit.done, s, base, k+1, []⟩) ∧
    (∀ (E : Env) (np base fuel k : ℕ) (s : SlewState),
      ¬(readCtr E k base < np) →
      nudge_wait E np base (fuel+1) k s = (s, k+1, true, [])) := by
  constructor
  · intro C fuel k s base ln h
    unfold hold_loop
    dsimp only
    rw [if_neg h]
  · intro E np base fuel k s h
    unfold nudge_wait
    dsimp only
    rw [if_neg h]

/-- Witness for C4 (amended): a hold whose duration has elapsed at the
guard returns done immediately. -/
theorem C4_blocking_bounds_witness :
    hold_loop holdCtxW 1 10 slewB 0 0 = ⟨true, HoldExit.done, slewB, 0, 11, []⟩ :=
  C4_blocking_bounds.1 holdCtxW 0 10 slewB 0 0 (by decide)
